import Mathlib

/-!
Shallow embedding of the subscription publish engine of
`src/src/server/ua_subscription.c` (open62541), together with theorems
checking the specification's claims against it.

Modelling conventions:
* `UA_UInt32` counters are `Nat` with arithmetic taken `% 2^32` where the C
  increments a 32-bit field; `size_t` counters are plain `Nat` with truncated
  subtraction (the claims never probe a `size_t` underflow).
* Intrusive lists become Lean lists in iteration order:
  the retransmission `TAILQ` has its head first (newest first, since
  `TAILQ_INSERT_HEAD` inserts there and `TAILQ_LAST` is the list's last
  element); a monitored item's value `TAILQ` is FIFO with the head the
  oldest; the session's `SIMPLEQ` response queue has `SIMPLEQ_FIRST` as the
  list head.
* Allocation (`UA_malloc`, `*_new`, `UA_Array_new`) is nondeterministic in C;
  the embedding receives an `AllocProfile` of success flags, one per
  allocation site of the publish path, and the failure branches report the
  net number of allocations left live (allocated minus freed) so that the
  no-leak behaviour of the code is a provable statement.
* Emission over the secure channel (`UA_SecureChannel_sendSymmetricMessage`)
  is modelled by collecting the sent responses in a list; deletion of the
  subscription (`UA_Session_deleteSubscription`) by a boolean flag.
-/

namespace UASub

/-- 2^32, the modulus of `UA_UInt32` arithmetic. -/
def W : Nat := 2 ^ 32

/-- Status codes used by the engine (`UA_STATUSCODE_*`). -/
inductive StatusCode where
  | good
  | badMonitoredItemIdInvalid
  | badSequenceNumberUnknown
  | badNoSubscription
  | badOutOfMemory
  deriving DecidableEq, Repr

/-- A sampled value queued at a monitored item (`MonitoredItem_queuedValue`):
a client handle plus the data value (abstracted to a `Nat`). -/
structure QueuedValue where
  clientHandle : Nat
  value : Nat
  deriving DecidableEq, Repr

/-- The publisher's view of a monitored item (`UA_MonitoredItem`): its id,
the FIFO queue of sampled values (head = oldest) and the explicit
`currentQueueSize` counter. -/
structure MonitoredItem where
  itemId : Nat
  queue : List QueuedValue
  currentQueueSize : Nat
  deriving DecidableEq, Repr

/-- One entry of the `DataChangeNotification.monitoredItems` array
(`UA_MonitoredItemNotification`). -/
structure MonitoredItemNotification where
  clientHandle : Nat
  value : Nat
  deriving DecidableEq, Repr

/-- `UA_NotificationMessage`: sequence number, publish time and the moved
notifications (empty list = no `notificationData` entries, as in a
keep-alive). -/
structure NotificationMessage where
  sequenceNumber : Nat
  publishTime : Nat
  notifications : List MonitoredItemNotification
  deriving DecidableEq, Repr

/-- A retransmission-queue cell (`UA_NotificationMessageEntry`). -/
structure NotificationMessageEntry where
  message : NotificationMessage
  deriving DecidableEq, Repr

/-- `UA_SubscriptionState`. -/
inductive SubscriptionState where
  | normal
  | late
  | keepalive
  deriving DecidableEq, Repr

/-- `UA_Subscription`: parameters, runtime counters, state, monitored items
and the owned retransmission queue (head = newest). -/
structure Subscription where
  subscriptionID : Nat
  publishingEnabled : Bool
  maxKeepAliveCount : Nat
  lifeTimeCount : Nat
  notificationsPerPublish : Nat
  sequenceNumber : Nat
  currentKeepAliveCount : Nat
  currentLifetimeCount : Nat
  state : SubscriptionState
  monitoredItems : List MonitoredItem
  retransmissionQueue : List NotificationMessageEntry
  retransmissionQueueSize : Nat
  deriving DecidableEq, Repr

/-- A queued publish request awaiting its response
(`UA_PublishResponseEntry`): the request id it will answer. -/
structure PublishResponseEntry where
  requestId : Nat
  deriving DecidableEq, Repr

/-- The publish engine's view of `UA_Session`: the secure channel (if any),
the FIFO response queue (head = `SIMPLEQ_FIRST`), and whether
`LIST_FIRST(&session->serverSubscriptions)` is non-null. -/
structure Session where
  channel : Option Nat
  responseQueue : List PublishResponseEntry
  hasSubscriptions : Bool
  deriving DecidableEq, Repr

/-- The server state the engine reads: the retransmission bound from
`server->config` and the current time (`UA_DateTime_now`). -/
structure Server where
  maxRetransmissionQueueSize : Nat
  now : Nat
  deriving DecidableEq, Repr

/-- The server-authored fields of a sent `UA_PublishResponse`, together with
the request id handed to `UA_SecureChannel_sendSymmetricMessage`. -/
structure PublishResponse where
  requestId : Nat
  subscriptionId : Nat
  serviceResult : StatusCode
  timestamp : Nat
  moreNotifications : Bool
  sequenceNumber : Nat
  publishTime : Nat
  notifications : List MonitoredItemNotification
  availableSequenceNumbers : List Nat
  deriving DecidableEq, Repr

/-! ## countQueuedNotifications -/

/-- Inner loop of `countQueuedNotifications` over one monitored item's value
queue: per queued value, if the running count has reached
`notificationsPerPublish`, set `moreNotifications` and break; otherwise
count it. -/
def countItemQueue (cap : Nat) : List QueuedValue → Nat → Bool → Nat × Bool
  | [], acc, more => (acc, more)
  | _ :: rest, acc, more =>
    if acc ≥ cap then (acc, true)
    else countItemQueue cap rest (acc + 1) more

/-- Outer loop of `countQueuedNotifications` over all monitored items. -/
def countItemsQueues (cap : Nat) : List MonitoredItem → Nat → Bool → Nat × Bool
  | [], acc, more => (acc, more)
  | mon :: rest, acc, more =>
    let r := countItemQueue cap mon.queue acc more
    countItemsQueues cap rest r.1 r.2

/-- `countQueuedNotifications`: 0 when publishing is disabled (the
`moreNotifications` out-parameter was initialised to `false` by the caller
and is left untouched), otherwise the capped walk over all monitored
items. -/
def countQueuedNotifications (sub : Subscription) : Nat × Bool :=
  if !sub.publishingEnabled then (0, false)
  else countItemsQueues sub.notificationsPerPublish sub.monitoredItems 0 false

/-! ## Retransmission queue -/

/-- `UA_Subscription_addRetransmissionMessage`: if the bound is non-zero and
the size counter has reached it, remove and destroy the `TAILQ_LAST`
(oldest) entry; then insert the new entry at the head and bump the size. -/
def addRetransmissionMessage (maxSize : Nat) (sub : Subscription)
    (entry : NotificationMessageEntry) : Subscription :=
  let sub1 :=
    if maxSize > 0 ∧ sub.retransmissionQueueSize ≥ maxSize then
      { sub with
        retransmissionQueue := sub.retransmissionQueue.dropLast,
        retransmissionQueueSize := sub.retransmissionQueueSize - 1 }
    else sub
  { sub1 with
    retransmissionQueue := entry :: sub1.retransmissionQueue,
    retransmissionQueueSize := sub1.retransmissionQueueSize + 1 }

/-- The `TAILQ_FOREACH` scan of `UA_Subscription_removeRetransmissionMessage`:
remove the first entry whose message carries the given sequence number,
`none` when no entry matches. -/
def removeFirstSeq (n : Nat) :
    List NotificationMessageEntry → Option (List NotificationMessageEntry)
  | [] => none
  | e :: rest =>
    if e.message.sequenceNumber = n then some rest
    else (removeFirstSeq n rest).map (e :: ·)

/-- `UA_Subscription_removeRetransmissionMessage`: scan for the entry with
the acknowledged sequence number; if absent return
`BadSequenceNumberUnknown`, otherwise unlink and destroy it and decrement
the size counter. -/
def removeRetransmissionMessage (sub : Subscription) (sequenceNumber : Nat) :
    StatusCode × Subscription :=
  match removeFirstSeq sequenceNumber sub.retransmissionQueue with
  | none => (.badSequenceNumberUnknown, sub)
  | some q =>
    (.good,
     { sub with
       retransmissionQueue := q,
       retransmissionQueueSize := sub.retransmissionQueueSize - 1 })

/-! ## prepareNotificationMessage -/

/-- Success flags, one per allocation site of the publish path:
`UA_ExtensionObject_new` for `message->notificationData`,
`UA_DataChangeNotification_new`, `UA_Array_new` for
`dcn->monitoredItems`, and the `UA_malloc` of the retransmission entry. -/
structure AllocProfile where
  extObjOk : Bool
  dcnOk : Bool
  arrayOk : Bool
  retransOk : Bool
  deriving DecidableEq, Repr

/-- Result of `prepareNotificationMessage`: on `BADOUTOFMEMORY`, `leaked`
counts the allocations this call made and did not free before returning;
on success, the moved notifications and the drained monitored items. -/
inductive PrepResult where
  | fail (leaked : Nat)
  | ok (moved : List MonitoredItemNotification) (items : List MonitoredItem)
  deriving DecidableEq, Repr

/-- The `TAILQ_FOREACH_SAFE` move loop over one monitored item's queue:
while the budget `l < notifications` allows, copy the queued value into the
array, unlink and free the cell and decrement `currentQueueSize`; once the
budget is exhausted the C code returns, leaving the rest untouched.
Returns the moved notifications, the remaining queue and the remaining
size counter. -/
def drainItemQueue : Nat → List QueuedValue → Nat →
    List MonitoredItemNotification × List QueuedValue × Nat
  | 0, q, size => ([], q, size)
  | _ + 1, [], size => ([], [], size)
  | budget + 1, qv :: rest, size =>
    let r := drainItemQueue budget rest (size - 1)
    (⟨qv.clientHandle, qv.value⟩ :: r.1, r.2.1, r.2.2)

/-- The `LIST_FOREACH` move loop over the monitored items, threading the
remaining budget. -/
def drainItems : Nat → List MonitoredItem →
    List MonitoredItemNotification × List MonitoredItem
  | _, [] => ([], [])
  | budget, mon :: rest =>
    let r := drainItemQueue budget mon.queue mon.currentQueueSize
    let mon1 : MonitoredItem :=
      { mon with queue := r.2.1, currentQueueSize := r.2.2 }
    let r2 := drainItems (budget - r.1.length) rest
    (r.1 ++ r2.1, mon1 :: r2.2)

/-- `prepareNotificationMessage`: allocate the `ExtensionObject`, the
`DataChangeNotification` and the `monitoredItems` array; on any failure
`UA_NotificationMessage_deleteMembers` frees everything allocated so far
(the leak count of each `fail` is allocations minus frees); then move the
queued values — the loop itself cannot fail. -/
def prepareNotificationMessage (alloc : AllocProfile) (sub : Subscription)
    (notifications : Nat) : PrepResult :=
  if !alloc.extObjOk then
    -- notificationData allocation failed: nothing was allocated
    .fail 0
  else if !alloc.dcnOk then
    -- the ExtensionObject was allocated (1); deleteMembers frees it (1)
    .fail (1 - 1)
  else if !alloc.arrayOk then
    -- ExtensionObject and decoded dcn allocated (2); deleteMembers frees
    -- the notificationData array together with its decoded content (2)
    .fail (2 - 2)
  else
    let r := drainItems notifications sub.monitoredItems
    .ok r.1 r.2

/-! ## UA_Subscription_publishCallback -/

/-- What one invocation of the publish callback did: the final subscription
and session, the responses handed to the secure channel (in order), whether
`UA_Session_deleteSubscription` was called, net allocations leaked on an
abort, and whether the code reached the `moreNotifications` re-entry
check with the flag set. -/
structure TickResult where
  sub : Subscription
  session : Session
  emitted : List PublishResponse
  deleted : Bool
  leaked : Nat
  more : Bool
  deriving DecidableEq, Repr

/-- The tail of `UA_Subscription_publishCallback` after the keep-alive
accounting: channel check, response-queue rendezvous (LATE transition,
lifetime counting, deletion), response preparation, the point of no
return, commit and emission. `notifications` and `moreNotifications` are
the results of `countQueuedNotifications`. -/
def publishTickCont (alloc : AllocProfile) (server : Server)
    (sub : Subscription) (session : Session)
    (notifications : Nat) (moreNotifications : Bool) : TickResult :=
  -- Check if the securechannel is valid
  match session.channel with
  | none => ⟨sub, session, [], false, 0, false⟩
  | some _ =>
    -- Dequeue a response; cannot publish without one
    match session.responseQueue with
    | [] =>
      if sub.state ≠ .late then
        ⟨{ sub with state := .late }, session, [], false, 0, false⟩
      else
        let sub1 :=
          { sub with currentLifetimeCount := (sub.currentLifetimeCount + 1) % W }
        if sub1.currentLifetimeCount > sub1.lifeTimeCount then
          ⟨sub1, session, [], true, 0, false⟩
        else
          ⟨sub1, session, [], false, 0, false⟩
    | pre :: restQueue =>
      if notifications > 0 then
        if !alloc.retransOk then
          -- retransmission-entry malloc failed: return, nothing allocated
          ⟨sub, session, [], false, 0, false⟩
        else
          match prepareNotificationMessage alloc sub notifications with
          | .fail leaked =>
            -- the retransmission entry was allocated (1) and freed (1)
            ⟨sub, session, [], false, leaked + (1 - 1), false⟩
          | .ok moved items =>
            -- point of no return: dequeue, stamp, commit the sequence number,
            -- push the message onto the retransmission queue, emit, reset
            let seqNew := (sub.sequenceNumber + 1) % W
            let message : NotificationMessage :=
              ⟨seqNew, server.now, moved⟩
            let sub1 :=
              addRetransmissionMessage server.maxRetransmissionQueueSize
                { sub with monitoredItems := items, sequenceNumber := seqNew }
                ⟨message⟩
            let available :=
              if sub1.retransmissionQueueSize > 0 then
                sub1.retransmissionQueue.map (·.message.sequenceNumber)
              else []
            let sub2 :=
              { sub1 with
                state := .normal, currentKeepAliveCount := 0,
                currentLifetimeCount := 0 }
            ⟨sub2, { session with responseQueue := restQueue },
             [⟨pre.requestId, sub.subscriptionID, .good, server.now,
               moreNotifications, seqNew, server.now, moved, available⟩],
             false, 0, moreNotifications⟩
      else
        -- keep-alive: preview sequence number, nothing enters the
        -- retransmission queue, the counter is not advanced
        let seqPreview := (sub.sequenceNumber + 1) % W
        let available :=
          if sub.retransmissionQueueSize > 0 then
            sub.retransmissionQueue.map (·.message.sequenceNumber)
          else []
        let sub1 :=
          { sub with
            state := .normal, currentKeepAliveCount := 0,
            currentLifetimeCount := 0 }
        ⟨sub1, { session with responseQueue := restQueue },
         [⟨pre.requestId, sub.subscriptionID, .good, server.now,
           moreNotifications, seqPreview, server.now, [], available⟩],
         false, 0, moreNotifications⟩

/-- One invocation of `UA_Subscription_publishCallback` without the final
recursive re-entry: count the notifications, do the keep-alive accounting
(note the increment happens before the channel check), then fall through
to `publishTickCont`. -/
def publishTickOnce (alloc : AllocProfile) (server : Server)
    (sub : Subscription) (session : Session) : TickResult :=
  let c := countQueuedNotifications sub
  if c.1 = 0 then
    let sub1 :=
      { sub with currentKeepAliveCount := (sub.currentKeepAliveCount + 1) % W }
    if sub1.currentKeepAliveCount < sub1.maxKeepAliveCount then
      ⟨sub1, session, [], false, 0, false⟩
    else
      publishTickCont alloc server sub1 session c.1 c.2
  else
    publishTickCont alloc server sub session c.1 c.2

/-- `UA_Subscription_publishCallback` with its recursive re-entry on
`moreNotifications`, bounded by explicit fuel (the C recursion terminates
whenever `notificationsPerPublish > 0`, since each data-bearing pass moves
that many values out of the item queues). -/
def publishCallback (alloc : AllocProfile) (server : Server) :
    Nat → Subscription → Session → TickResult
  | 0, sub, session => ⟨sub, session, [], false, 0, false⟩
  | fuel + 1, sub, session =>
    let r := publishTickOnce alloc server sub session
    if r.more then
      let r2 := publishCallback alloc server fuel r.sub r.session
      ⟨r2.sub, r2.session, r.emitted ++ r2.emitted, r2.deleted,
       r.leaked + r2.leaked, r2.more⟩
    else r

/-! ## UA_Subscription_answerPublishRequestsNoSubscription -/

/-- The `while((pre = SIMPLEQ_FIRST(...)))` flush loop: every queued request
is answered, head first, with `serviceResult = BadNoSubscription` and the
entry's request id, then the envelope is destroyed. -/
def flushQueue : List PublishResponseEntry → List (Nat × StatusCode)
  | [] => []
  | pre :: rest => (pre.requestId, StatusCode.badNoSubscription) :: flushQueue rest

/-- `UA_Subscription_answerPublishRequestsNoSubscription`: a null session or
one that still owns subscriptions is left alone; otherwise the response
queue is flushed. Returns the resulting session and the
`(requestId, serviceResult)` pairs handed to the secure channel, in
emission order. -/
def answerPublishRequestsNoSubscription :
    Option Session → Option Session × List (Nat × StatusCode)
  | none => (none, [])
  | some session =>
    if session.hasSubscriptions then (some session, [])
    else
      (some { session with responseQueue := [] },
       flushQueue session.responseQueue)

/-! ## Multi-tick traces -/

/-- The environment of one scheduler tick: between ticks the sampling engine
may refill the monitored-item queues (modelled as an arbitrary replacement,
a superset of what the sampler can do) and the session's channel and
response queue evolve with the network. -/
structure TickEnv where
  items : List MonitoredItem
  session : Session
  deriving Repr

/-- Run the publish callback over a list of tick environments, collecting
every emitted response; a deleted subscription ends the trace. -/
def runTrace (alloc : AllocProfile) (server : Server) (fuel : Nat) :
    List TickEnv → Subscription → List PublishResponse
  | [], _ => []
  | env :: rest, sub =>
    let r := publishCallback alloc server fuel
      { sub with monitoredItems := env.items } env.session
    if r.deleted then r.emitted
    else r.emitted ++ runTrace alloc server fuel rest r.sub

/-- A response is data-bearing when it carries at least one notification. -/
def dataBearing (r : PublishResponse) : Bool :=
  !r.notifications.isEmpty

/-- Push a list of entries in order (first element pushed first). -/
def pushAll (maxSize : Nat) (sub : Subscription)
    (entries : List NotificationMessageEntry) : Subscription :=
  entries.foldl (addRetransmissionMessage maxSize) sub

/-- One step of the 32-bit sequence counter: `++sequenceNumber` as
`UA_UInt32` arithmetic. -/
def stepW (s : Nat) : Nat := (s + 1) % W

/-- The list of message sequence numbers expected from `n` consecutive
data-bearing responses after the counter held `s`: each is its
predecessor plus one, modulo 2^32. -/
def seqChain (s : Nat) : Nat → List Nat
  | 0 => []
  | n + 1 => stepW s :: seqChain (stepW s) n

/-- Total number of values queued across a list of monitored items. -/
def totalQueued (items : List MonitoredItem) : Nat :=
  (items.map (·.queue.length)).sum

/-! ## Concrete fixtures for the boundary scenarios -/

/-- Every allocation succeeds. -/
def allocAllOk : AllocProfile := ⟨true, true, true, true⟩

/-- A server with retransmission bound 10 at time 1000. -/
def testServer : Server := ⟨10, 1000⟩

/-- Lifetime scenario: `lifeTimeCount = 2`, publishing enabled, one
notification pending, fresh counters. -/
def ltSub : Subscription :=
  ⟨3, true, 100, 2, 5, 0, 0, 0, .normal, [⟨1, [⟨1, 10⟩], 1⟩], [], 0⟩

/-- A session with a valid channel whose publish-response queue is empty. -/
def emptyRespSession : Session := ⟨some 1, [], true⟩

/-- Lifetime scenario, ticks 1–4 with the response queue empty throughout. -/
def ltTick1 : TickResult := publishTickOnce allocAllOk testServer ltSub emptyRespSession
def ltTick2 : TickResult := publishTickOnce allocAllOk testServer ltTick1.sub emptyRespSession
def ltTick3 : TickResult := publishTickOnce allocAllOk testServer ltTick2.sub emptyRespSession
def ltTick4 : TickResult := publishTickOnce allocAllOk testServer ltTick3.sub emptyRespSession

/-- Overflow scenario: one monitored item with five queued values
A,B,C,D,E (client handles 1–5). -/
def ovItem : MonitoredItem :=
  ⟨1, [⟨1, 10⟩, ⟨2, 20⟩, ⟨3, 30⟩, ⟨4, 40⟩, ⟨5, 50⟩], 5⟩

/-- Overflow scenario: `notificationsPerPublish = 2`, sequence counter 0. -/
def ovSub : Subscription :=
  ⟨9, true, 3, 10, 2, 0, 0, 0, .normal, [ovItem], [], 0⟩

/-- One pending publish request. -/
def ovOneReq : Session := ⟨some 1, [⟨100⟩], true⟩

/-- Two pending publish requests. -/
def ovTwoReq : Session := ⟨some 1, [⟨100⟩, ⟨101⟩], true⟩

/-- Overflow scenario, a single tick with one pending request. -/
def ovTick : TickResult := publishTickOnce allocAllOk testServer ovSub ovOneReq

/-- Overflow scenario, the full recursive callback with two pending
requests. -/
def ovRun : TickResult := publishCallback allocAllOk testServer 10 ovSub ovTwoReq

/-- Keep-alive scenario: `maxKeepAliveCount = 3`, publishing enabled, no
monitored items, fresh counters. -/
def kaSub : Subscription :=
  ⟨7, true, 3, 10, 5, 0, 0, 0, .normal, [], [], 0⟩

/-- A session with a valid channel and one pending publish request. -/
def kaSess : Session := ⟨some 1, [⟨42⟩], true⟩

/-- Keep-alive scenario, ticks 1–3, a publish request pending each tick. -/
def kaTick1 : TickResult := publishTickOnce allocAllOk testServer kaSub kaSess
def kaTick2 : TickResult := publishTickOnce allocAllOk testServer kaTick1.sub kaSess
def kaTick3 : TickResult := publishTickOnce allocAllOk testServer kaTick2.sub kaSess

/-- Channel-loss scenario: no monitored items (so the tick counts zero
notifications), `maxKeepAliveCount = 1`, fresh counters. -/
def chSub : Subscription :=
  ⟨1, true, 1, 10, 5, 0, 0, 0, .normal, [], [], 0⟩

/-- A session whose secure channel is gone, with a request still queued. -/
def chSess : Session := ⟨none, [⟨5⟩], true⟩

/-- Channel-loss scenario, one tick. -/
def chTick : TickResult := publishTickOnce allocAllOk testServer chSub chSess

/-- Rescue scenario: a session with no remaining subscriptions and two
queued publish requests. -/
def rescueSess : Session := ⟨some 1, [⟨1⟩, ⟨2⟩], false⟩

/-- Acknowledgement scenario: a subscription whose retransmission queue
holds the messages with sequence numbers 3, 2, 1 (newest first). -/
def ackSub : Subscription :=
  ⟨5, true, 3, 10, 5, 3, 0, 0, .normal, [],
   [⟨⟨3, 0, []⟩⟩, ⟨⟨2, 0, []⟩⟩, ⟨⟨1, 0, []⟩⟩], 3⟩

/-- Three retransmission entries used by the bounded-FIFO witness. -/
def pushEntries : List NotificationMessageEntry :=
  [⟨⟨1, 0, []⟩⟩, ⟨⟨2, 0, []⟩⟩, ⟨⟨3, 0, []⟩⟩]

/-- An allocation profile where `UA_Array_new` fails. -/
def allocNoArray : AllocProfile := ⟨true, true, true, false⟩

/-! # Theorems -/

/-- Helper: the flush loop answers exactly the queued requests, head first,
each with `BadNoSubscription`. -/
theorem flushQueue_eq_map (q : List PublishResponseEntry) :
    flushQueue q = q.map (fun pre => (pre.requestId, StatusCode.badNoSubscription)) := by
  induction q with
  | nil => rfl
  | cons pre rest ih => simp [flushQueue, ih]

/-- C2 (counterexample): in the lifetime scenario with `lifeTimeCount = 2`
the third tick only raises `currentLifetimeCount` to 2, and since the
comparison is strict (`2 > 2` fails) the subscription is not deleted on
tick 3, contrary to the claim. -/
theorem claim_C2_counterexample :
    ltSub.lifeTimeCount = 2 ∧
    ltTick3.sub.currentLifetimeCount = 2 ∧
    ¬ ltTick3.sub.currentLifetimeCount > ltSub.lifeTimeCount ∧
    ltTick3.deleted = false := by decide

/-- C2 (amended): with `lifetime_count = 2`, publishing enabled,
notifications pending, a valid channel and the response queue empty on
every tick: tick 1 moves the state from NORMAL to LATE without touching
the lifetime counter, tick 2 sets `current_lifetime_count` to 1, tick 3
sets it to 2 (2 > 2 fails, so the subscription survives), and tick 4
raises it to 3, which exceeds 2, so the subscription is deleted via the
session. -/
theorem claim_C2_amended :
    ltSub.state = .normal ∧ ltSub.lifeTimeCount = 2 ∧
    ltTick1.sub.state = .late ∧ ltTick1.sub.currentLifetimeCount = 0 ∧
    ltTick1.deleted = false ∧ ltTick1.emitted = [] ∧
    ltTick2.sub.currentLifetimeCount = 1 ∧ ltTick2.deleted = false ∧
    ltTick3.sub.currentLifetimeCount = 2 ∧ ltTick3.deleted = false ∧
    ltTick4.sub.currentLifetimeCount = 3 ∧
    ltTick4.sub.currentLifetimeCount > ltSub.lifeTimeCount ∧
    ltTick4.deleted = true := by decide

/-- C3: with `notificationsPerPublish = 2` and one monitored item holding
the five queued values A..E, a tick with one pending request emits exactly
{A,B} with `moreNotifications = true` and `sequenceNumber = 1` and leaves
the item's queue as {C,D,E}; with two pending requests the recursive
callback additionally emits {C,D} with sequence number 2 and
`moreNotifications = true`. -/
theorem claim_C3 :
    ovTick.emitted =
      [⟨100, 9, .good, 1000, true, 1, 1000, [⟨1, 10⟩, ⟨2, 20⟩], [1]⟩] ∧
    ovTick.sub.monitoredItems = [⟨1, [⟨3, 30⟩, ⟨4, 40⟩, ⟨5, 50⟩], 3⟩] ∧
    ovRun.emitted =
      [⟨100, 9, .good, 1000, true, 1, 1000, [⟨1, 10⟩, ⟨2, 20⟩], [1]⟩,
       ⟨101, 9, .good, 1000, true, 2, 1000, [⟨3, 30⟩, ⟨4, 40⟩], [2, 1]⟩] := by
  decide

/-- C5: with `maxKeepAliveCount = 3`, publishing enabled, no monitored
items, a valid channel and a pending request, ticks 1 and 2 emit nothing
and advance the keep-alive counter to 1 and 2; tick 3 emits a keep-alive
response with `sequenceNumber = 1`, `moreNotifications = false` and an
empty notification payload, and the subscription's sequence counter is
still 0 afterwards. -/
theorem claim_C5 :
    kaTick1.emitted = [] ∧ kaTick1.sub.currentKeepAliveCount = 1 ∧
    kaTick2.emitted = [] ∧ kaTick2.sub.currentKeepAliveCount = 2 ∧
    kaTick3.emitted = [⟨42, 7, .good, 1000, false, 1, 1000, [], []⟩] ∧
    kaTick3.sub.sequenceNumber = 0 := by decide

/-- C7 (counterexample): on a tick with no secure channel but zero counted
notifications, the keep-alive counter is incremented before the channel
check, so the claim that no counter changes is false. -/
theorem claim_C7_counterexample :
    chSess.channel = none ∧
    chTick.sub.currentKeepAliveCount ≠ chSub.currentKeepAliveCount := by decide

/-- C7 (amended): on any tick where the session has no secure channel the
callback emits nothing, deletes nothing, dequeues nothing, and leaves the
state, lifetime counter, sequence number, retransmission queue and
monitored items unchanged; the keep-alive counter, however, is incremented
(mod 2^32) exactly when the tick counted zero notifications, because that
increment precedes the channel check. -/
theorem claim_C7_amended (alloc : AllocProfile) (server : Server)
    (sub : Subscription) (session : Session) (h : session.channel = none) :
    (publishTickOnce alloc server sub session).emitted = [] ∧
    (publishTickOnce alloc server sub session).deleted = false ∧
    (publishTickOnce alloc server sub session).session = session ∧
    (publishTickOnce alloc server sub session).sub.state = sub.state ∧
    (publishTickOnce alloc server sub session).sub.currentLifetimeCount =
      sub.currentLifetimeCount ∧
    (publishTickOnce alloc server sub session).sub.sequenceNumber =
      sub.sequenceNumber ∧
    (publishTickOnce alloc server sub session).sub.retransmissionQueue =
      sub.retransmissionQueue ∧
    (publishTickOnce alloc server sub session).sub.monitoredItems =
      sub.monitoredItems ∧
    (publishTickOnce alloc server sub session).sub.currentKeepAliveCount =
      (if (countQueuedNotifications sub).1 = 0 then
        (sub.currentKeepAliveCount + 1) % W
       else sub.currentKeepAliveCount) := by
  unfold publishTickOnce publishTickCont
  rw [h]
  by_cases h0 : (countQueuedNotifications sub).1 = 0 <;> simp [h0]

/-- C7 (witness for the amended theorem). -/
theorem claim_C7_amended_witness :
    chSess.channel = none ∧
    ((publishTickOnce allocAllOk testServer chSub chSess).emitted = [] ∧
     (publishTickOnce allocAllOk testServer chSub chSess).deleted = false ∧
     (publishTickOnce allocAllOk testServer chSub chSess).session = chSess ∧
     (publishTickOnce allocAllOk testServer chSub chSess).sub.state = chSub.state ∧
     (publishTickOnce allocAllOk testServer chSub chSess).sub.currentLifetimeCount =
       chSub.currentLifetimeCount ∧
     (publishTickOnce allocAllOk testServer chSub chSess).sub.sequenceNumber =
       chSub.sequenceNumber ∧
     (publishTickOnce allocAllOk testServer chSub chSess).sub.retransmissionQueue =
       chSub.retransmissionQueue ∧
     (publishTickOnce allocAllOk testServer chSub chSess).sub.monitoredItems =
       chSub.monitoredItems ∧
     (publishTickOnce allocAllOk testServer chSub chSess).sub.currentKeepAliveCount =
       (if (countQueuedNotifications chSub).1 = 0 then
         (chSub.currentKeepAliveCount + 1) % W
        else chSub.currentKeepAliveCount)) :=
  ⟨rfl, claim_C7_amended allocAllOk testServer chSub chSess rfl⟩

/-- C9: for a non-null session with no remaining subscriptions the rescue
flush answers every queued request in FIFO order with
`BadNoSubscription` and the request's id, leaves the response queue
empty, a repeated call does nothing, and a null session does nothing. -/
theorem claim_C9 (session : Session) (h : session.hasSubscriptions = false) :
    (answerPublishRequestsNoSubscription (some session)).2 =
      session.responseQueue.map
        (fun pre => (pre.requestId, StatusCode.badNoSubscription)) ∧
    (answerPublishRequestsNoSubscription (some session)).1 =
      some { session with responseQueue := [] } ∧
    answerPublishRequestsNoSubscription
        (answerPublishRequestsNoSubscription (some session)).1 =
      ((answerPublishRequestsNoSubscription (some session)).1, []) ∧
    answerPublishRequestsNoSubscription none = (none, []) := by
  simp [answerPublishRequestsNoSubscription, h, flushQueue_eq_map, flushQueue]

/-- C9 (witness). -/
theorem claim_C9_witness :
    rescueSess.hasSubscriptions = false ∧
    ((answerPublishRequestsNoSubscription (some rescueSess)).2 =
      rescueSess.responseQueue.map
        (fun pre => (pre.requestId, StatusCode.badNoSubscription)) ∧
     (answerPublishRequestsNoSubscription (some rescueSess)).1 =
       some { rescueSess with responseQueue := [] } ∧
     answerPublishRequestsNoSubscription
         (answerPublishRequestsNoSubscription (some rescueSess)).1 =
       ((answerPublishRequestsNoSubscription (some rescueSess)).1, []) ∧
     answerPublishRequestsNoSubscription none = (none, [])) :=
  ⟨rfl, claim_C9 rescueSess rfl⟩

/-- Helper: the acknowledgement scan fails exactly when no entry carries the
sequence number. -/
theorem removeFirstSeq_none_iff (n : Nat) (q : List NotificationMessageEntry) :
    removeFirstSeq n q = none ↔ ∀ e ∈ q, e.message.sequenceNumber ≠ n := by
  induction q with
  | nil => simp [removeFirstSeq]
  | cons e rest ih =>
    by_cases he : e.message.sequenceNumber = n
    · simp [removeFirstSeq, he]
    · simp [removeFirstSeq, he, ih]

/-- Helper: a successful acknowledgement scan found the number in the
queue. -/
theorem removeFirstSeq_mem {n : Nat} {q q' : List NotificationMessageEntry}
    (h : removeFirstSeq n q = some q') :
    n ∈ q.map (·.message.sequenceNumber) := by
  induction q generalizing q' with
  | nil => simp [removeFirstSeq] at h
  | cons e rest ih =>
    by_cases he : e.message.sequenceNumber = n
    · simp [he]
    · simp only [removeFirstSeq, he, if_false, Option.map_eq_some'] at h
      obtain ⟨q0, h0, _⟩ := h
      simp [ih h0]

/-- Helper: a successful acknowledgement scan removes exactly one entry,
and under distinct sequence numbers no entry with the acknowledged number
survives. -/
theorem removeFirstSeq_some {n : Nat} {q q' : List NotificationMessageEntry}
    (h : removeFirstSeq n q = some q') :
    q'.length + 1 = q.length ∧
    ((q.map (·.message.sequenceNumber)).Nodup →
      ∀ e ∈ q', e.message.sequenceNumber ≠ n) := by
  induction q generalizing q' with
  | nil => simp [removeFirstSeq] at h
  | cons e rest ih =>
    by_cases he : e.message.sequenceNumber = n
    · simp only [removeFirstSeq, he, if_true, Option.some_inj] at h
      subst h
      refine ⟨by simp, fun hnd e' he' => ?_⟩
      simp only [List.map_cons, List.nodup_cons, he] at hnd
      intro hc
      exact hnd.1 (hc ▸ List.mem_map_of_mem (·.message.sequenceNumber) he')
    · simp only [removeFirstSeq, he, if_false, Option.map_eq_some'] at h
      obtain ⟨q0, h0, rfl⟩ := h
      obtain ⟨hlen, hres⟩ := ih h0
      refine ⟨by simpa using hlen, fun hnd e' he' => ?_⟩
      simp only [List.map_cons, List.nodup_cons] at hnd
      rcases List.mem_cons.mp he' with rfl | he'
      · exact he
      · exact hres hnd.2 e' he'

/-- C8: `removeRetransmissionMessage(s, n)` returns Good exactly when an
entry with sequence number n is in the queue; in that case (for the
reachable states, where the size counter matches the queue and sequence
numbers are distinct) the entry is removed — no entry with sequence n
remains — and the size drops by one while staying equal to the queue
length; otherwise `BadSequenceNumberUnknown` is returned and the
subscription is unchanged. -/
theorem claim_C8 (sub : Subscription) (n : Nat)
    (hsize : sub.retransmissionQueueSize = sub.retransmissionQueue.length)
    (hnodup : (sub.retransmissionQueue.map (·.message.sequenceNumber)).Nodup) :
    ((removeRetransmissionMessage sub n).1 = .good ↔
      n ∈ sub.retransmissionQueue.map (·.message.sequenceNumber)) ∧
    ((removeRetransmissionMessage sub n).1 = .good →
      (∀ e ∈ (removeRetransmissionMessage sub n).2.retransmissionQueue,
        e.message.sequenceNumber ≠ n) ∧
      (removeRetransmissionMessage sub n).2.retransmissionQueueSize + 1 =
        sub.retransmissionQueueSize ∧
      (removeRetransmissionMessage sub n).2.retransmissionQueueSize =
        (removeRetransmissionMessage sub n).2.retransmissionQueue.length) ∧
    ((removeRetransmissionMessage sub n).1 ≠ .good →
      (removeRetransmissionMessage sub n).1 = .badSequenceNumberUnknown ∧
      (removeRetransmissionMessage sub n).2 = sub) := by
  unfold removeRetransmissionMessage
  cases hmatch : removeFirstSeq n sub.retransmissionQueue with
  | none =>
    have hno := (removeFirstSeq_none_iff n sub.retransmissionQueue).mp hmatch
    refine ⟨?_, by simp, by simp⟩
    simp only [List.mem_map]
    constructor
    · intro h; cases h
    · rintro ⟨e, he, hseq⟩; exact absurd hseq (hno e he)
  | some q' =>
    obtain ⟨hlen, hres⟩ := removeFirstSeq_some hmatch
    have hmem := removeFirstSeq_mem hmatch
    have hq1 : 1 ≤ sub.retransmissionQueue.length := by omega
    refine ⟨by simpa using hmem, fun _ => ⟨hres hnodup, ?_, ?_⟩, by simp⟩
    · show sub.retransmissionQueueSize - 1 + 1 = sub.retransmissionQueueSize
      omega
    · show sub.retransmissionQueueSize - 1 = q'.length
      omega

/-- C8 (witness). -/
theorem claim_C8_witness :
    ackSub.retransmissionQueueSize = ackSub.retransmissionQueue.length ∧
    (ackSub.retransmissionQueue.map (·.message.sequenceNumber)).Nodup ∧
    (((removeRetransmissionMessage ackSub 2).1 = .good ↔
       2 ∈ ackSub.retransmissionQueue.map (·.message.sequenceNumber)) ∧
     ((removeRetransmissionMessage ackSub 2).1 = .good →
       (∀ e ∈ (removeRetransmissionMessage ackSub 2).2.retransmissionQueue,
         e.message.sequenceNumber ≠ 2) ∧
       (removeRetransmissionMessage ackSub 2).2.retransmissionQueueSize + 1 =
         ackSub.retransmissionQueueSize ∧
       (removeRetransmissionMessage ackSub 2).2.retransmissionQueueSize =
         (removeRetransmissionMessage ackSub 2).2.retransmissionQueue.length) ∧
     ((removeRetransmissionMessage ackSub 2).1 ≠ .good →
       (removeRetransmissionMessage ackSub 2).1 = .badSequenceNumberUnknown ∧
       (removeRetransmissionMessage ackSub 2).2 = ackSub)) :=
  ⟨rfl, by decide, claim_C8 ackSub 2 rfl (by decide)⟩

/-- Helper: truncating the second operand of an append to the overall
truncation length changes nothing. -/
theorem take_append_take {α : Type} (xs ys : List α) (M : Nat) :
    (xs ++ ys.take M).take M = (xs ++ ys).take M := by
  rw [List.take_append_eq_append_take, List.take_append_eq_append_take,
      List.take_take]
  congr 1
  exact congrArg (fun k => List.take k ys) (Nat.min_eq_left (Nat.sub_le M _))

/-- Helper: under a positive bound and the size/length invariant, a push is
head-insertion followed by truncation to the bound, and the size counter
tracks the queue length. -/
theorem addRetransmission_bounded (M : Nat) (hM : 0 < M) (sub : Subscription)
    (entry : NotificationMessageEntry)
    (hsize : sub.retransmissionQueueSize = sub.retransmissionQueue.length)
    (hbound : sub.retransmissionQueue.length ≤ M) :
    (addRetransmissionMessage M sub entry).retransmissionQueue =
      (entry :: sub.retransmissionQueue).take M ∧
    (addRetransmissionMessage M sub entry).retransmissionQueueSize =
      (addRetransmissionMessage M sub entry).retransmissionQueue.length := by
  unfold addRetransmissionMessage
  by_cases hc : M > 0 ∧ sub.retransmissionQueueSize ≥ M
  · have hfull : sub.retransmissionQueue.length = M := by omega
    simp only [hc, if_true]
    constructor
    · show entry :: sub.retransmissionQueue.dropLast =
        (entry :: sub.retransmissionQueue).take M
      obtain ⟨M0, rfl⟩ : ∃ M0, M = M0 + 1 := ⟨M - 1, by omega⟩
      rw [List.take_succ_cons, List.dropLast_eq_take, hfull]
      simp
    · show sub.retransmissionQueueSize - 1 + 1 =
        (entry :: sub.retransmissionQueue.dropLast).length
      simp [List.length_dropLast]
      omega
  · have hlt : sub.retransmissionQueue.length < M := by
      rcases Nat.lt_or_ge sub.retransmissionQueue.length M with h | h
      · exact h
      · exact absurd ⟨hM, by omega⟩ hc
    simp only [hc, if_false]
    constructor
    · show entry :: sub.retransmissionQueue =
        (entry :: sub.retransmissionQueue).take M
      rw [List.take_of_length_le (by simp; omega)]
    · show sub.retransmissionQueueSize + 1 =
        (entry :: sub.retransmissionQueue).length
      simp [hsize]

/-- Helper: pushing a list of entries under a positive bound truncates the
reversed push order to the bound; the size counter stays equal to the
queue length. -/
theorem pushAll_spec (M : Nat) (hM : 0 < M)
    (entries : List NotificationMessageEntry) :
    ∀ sub : Subscription,
      sub.retransmissionQueueSize = sub.retransmissionQueue.length →
      sub.retransmissionQueue.length ≤ M →
      (pushAll M sub entries).retransmissionQueue =
        (entries.reverse ++ sub.retransmissionQueue).take M ∧
      (pushAll M sub entries).retransmissionQueueSize =
        (pushAll M sub entries).retransmissionQueue.length := by
  induction entries with
  | nil =>
    intro sub hs hb
    constructor
    · simp only [pushAll, List.foldl_nil, List.reverse_nil, List.nil_append]
      exact (List.take_of_length_le hb).symm
    · exact hs
  | cons e es ih =>
    intro sub hs hb
    obtain ⟨hq, hs1⟩ := addRetransmission_bounded M hM sub e hs hb
    have hb1 : (addRetransmissionMessage M sub e).retransmissionQueue.length ≤ M := by
      rw [hq]; exact List.length_take_le M _
    obtain ⟨ih1, ih2⟩ := ih (addRetransmissionMessage M sub e) hs1 hb1
    have hfold : pushAll M sub (e :: es) =
        pushAll M (addRetransmissionMessage M sub e) es := rfl
    refine ⟨?_, hfold ▸ ih2⟩
    rw [hfold, ih1, hq, List.reverse_cons, List.append_assoc,
        List.singleton_append, take_append_take]

/-- C4: the retransmission queue is a bounded FIFO. Push inserts at the
head; under the size/length invariant the size field always equals the
actual queue length and, when the bound is positive, never exceeds it;
when the bound is positive and reached, the oldest (tail) entry is evicted
first; pushing N entries into an empty queue with bound M leaves
min(N, M) entries, namely the M most recently pushed (newest first). -/
theorem claim_C4 (M : Nat) (sub : Subscription)
    (entry : NotificationMessageEntry)
    (entries : List NotificationMessageEntry)
    (hsize : sub.retransmissionQueueSize = sub.retransmissionQueue.length)
    (hbound : M > 0 → sub.retransmissionQueue.length ≤ M) :
    (addRetransmissionMessage M sub entry).retransmissionQueue.head? =
      some entry ∧
    (addRetransmissionMessage M sub entry).retransmissionQueueSize =
      (addRetransmissionMessage M sub entry).retransmissionQueue.length ∧
    (M > 0 → (addRetransmissionMessage M sub entry).retransmissionQueueSize ≤ M) ∧
    (M > 0 → sub.retransmissionQueueSize ≥ M →
      (addRetransmissionMessage M sub entry).retransmissionQueue =
        entry :: sub.retransmissionQueue.dropLast) ∧
    (M > 0 → sub.retransmissionQueue = [] →
      (pushAll M sub entries).retransmissionQueue =
        entries.reverse.take M ∧
      (pushAll M sub entries).retransmissionQueueSize =
        min entries.length M) := by
  refine ⟨?_, ?_, ?_, ?_, ?_⟩
  · unfold addRetransmissionMessage
    split <;> rfl
  · by_cases hM : M > 0
    · exact (addRetransmission_bounded M hM sub entry hsize (hbound hM)).2
    · have : M = 0 := by omega
      subst this
      unfold addRetransmissionMessage
      simp [hsize]
  · intro hM
    obtain ⟨hq, hs⟩ := addRetransmission_bounded M hM sub entry hsize (hbound hM)
    rw [hs, hq]
    exact List.length_take_le M _
  · intro hM hfull
    unfold addRetransmissionMessage
    simp [hM, hfull]
  · intro hM hempty
    have h0 : sub.retransmissionQueueSize = sub.retransmissionQueue.length := hsize
    obtain ⟨hq, hs⟩ := pushAll_spec M hM entries sub h0 (by simp [hempty])
    rw [hempty, List.append_nil] at hq
    refine ⟨hq, ?_⟩
    rw [hs, hq, List.length_take, List.length_reverse, Nat.min_comm]

/-- C4 (witness): pushing three entries with bound 2 into the keep-alive
fixture's empty queue. -/
theorem claim_C4_witness :
    kaSub.retransmissionQueueSize = kaSub.retransmissionQueue.length ∧
    ((2 : Nat) > 0 → kaSub.retransmissionQueue.length ≤ 2) ∧
    ((addRetransmissionMessage 2 kaSub ⟨⟨1, 0, []⟩⟩).retransmissionQueue.head? =
      some ⟨⟨1, 0, []⟩⟩ ∧
     (addRetransmissionMessage 2 kaSub ⟨⟨1, 0, []⟩⟩).retransmissionQueueSize =
       (addRetransmissionMessage 2 kaSub ⟨⟨1, 0, []⟩⟩).retransmissionQueue.length ∧
     ((2 : Nat) > 0 →
       (addRetransmissionMessage 2 kaSub ⟨⟨1, 0, []⟩⟩).retransmissionQueueSize ≤ 2) ∧
     ((2 : Nat) > 0 → kaSub.retransmissionQueueSize ≥ 2 →
       (addRetransmissionMessage 2 kaSub ⟨⟨1, 0, []⟩⟩).retransmissionQueue =
         ⟨⟨1, 0, []⟩⟩ :: kaSub.retransmissionQueue.dropLast) ∧
     ((2 : Nat) > 0 → kaSub.retransmissionQueue = [] →
       (pushAll 2 kaSub pushEntries).retransmissionQueue =
         pushEntries.reverse.take 2 ∧
       (pushAll 2 kaSub pushEntries).retransmissionQueueSize =
         min pushEntries.length 2)) :=
  ⟨rfl, fun _ => by decide, claim_C4 2 kaSub ⟨⟨1, 0, []⟩⟩ pushEntries rfl (fun _ => by decide)⟩

/-- Helper: the per-item counting loop never decreases the accumulator. -/
theorem countItemQueue_ge (cap : Nat) (q : List QueuedValue) (acc : Nat)
    (more : Bool) : acc ≤ (countItemQueue cap q acc more).1 := by
  induction q generalizing acc more with
  | nil => simp [countItemQueue]
  | cons v rest ih =>
    by_cases hc : acc ≥ cap
    · simp [countItemQueue, hc]
    · simp only [countItemQueue, hc, if_false]
      exact le_trans (Nat.le_succ acc) (ih (acc + 1) more)

/-- Helper: the per-item loop reports `moreNotifications` only if it was
already set or the running count reached the cap. -/
theorem countItemQueue_true (cap : Nat) (q : List QueuedValue) (acc : Nat)
    (more : Bool) (h : (countItemQueue cap q acc more).2 = true) :
    more = true ∨ cap ≤ (countItemQueue cap q acc more).1 := by
  induction q generalizing acc more with
  | nil => simp [countItemQueue] at h; simp [h]
  | cons v rest ih =>
    by_cases hc : acc ≥ cap
    · simp [countItemQueue, hc]
    · simp only [countItemQueue, hc, if_false] at h ⊢
      exact ih (acc + 1) more h

/-- Helper: the outer counting loop never decreases the accumulator. -/
theorem countItemsQueues_ge (cap : Nat) (items : List MonitoredItem)
    (acc : Nat) (more : Bool) : acc ≤ (countItemsQueues cap items acc more).1 := by
  induction items generalizing acc more with
  | nil => simp [countItemsQueues]
  | cons mon rest ih =>
    simp only [countItemsQueues]
    exact le_trans (countItemQueue_ge cap mon.queue acc more)
      (ih (countItemQueue cap mon.queue acc more).1
          (countItemQueue cap mon.queue acc more).2)

/-- Helper: the outer loop reports `moreNotifications` only if it was
already set or the final count reached the cap. -/
theorem countItemsQueues_true (cap : Nat) (items : List MonitoredItem)
    (acc : Nat) (more : Bool)
    (h : (countItemsQueues cap items acc more).2 = true) :
    more = true ∨ cap ≤ (countItemsQueues cap items acc more).1 := by
  induction items generalizing acc more with
  | nil => simp [countItemsQueues] at h; simp [h]
  | cons mon rest ih =>
    simp only [countItemsQueues] at h ⊢
    rcases ih (countItemQueue cap mon.queue acc more).1
        (countItemQueue cap mon.queue acc more).2 h with hinner | hcap
    · rcases countItemQueue_true cap mon.queue acc more hinner with hm | hcap
      · exact Or.inl hm
      · refine Or.inr (le_trans hcap ?_)
        exact countItemsQueues_ge cap rest _ _
    · exact Or.inr hcap

/-- Helper: when the cap is at least 1 and the count is 0, the
`moreNotifications` flag is false. -/
theorem countQueued_zero_no_more (sub : Subscription)
    (hcap : 1 ≤ sub.notificationsPerPublish)
    (h0 : (countQueuedNotifications sub).1 = 0) :
    (countQueuedNotifications sub).2 = false := by
  unfold countQueuedNotifications at h0 ⊢
  by_cases hp : sub.publishingEnabled
  · simp only [hp, Bool.not_true, Bool.false_eq_true, if_false] at h0 ⊢
    by_contra hb
    have ht : (countItemsQueues sub.notificationsPerPublish
        sub.monitoredItems 0 false).2 = true := by
      revert hb; cases (countItemsQueues sub.notificationsPerPublish
        sub.monitoredItems 0 false).2 <;> simp
    rcases countItemsQueues_true _ _ _ _ ht with hf | hcaple
    · cases hf
    · omega
  · simp only [Bool.not_eq_true] at hp
    simp [hp]

/-- Helper: a tick that reaches the rendezvous with zero notifications and
a clear `moreNotifications` flag never sets the continuation flag and can
only emit a keep-alive with no notifications. -/
theorem publishTickCont_keepalive (alloc : AllocProfile) (server : Server)
    (sub : Subscription) (session : Session) :
    (publishTickCont alloc server sub session 0 false).more = false ∧
    ∀ resp ∈ (publishTickCont alloc server sub session 0 false).emitted,
      resp.notifications = [] ∧ resp.moreNotifications = false := by
  obtain ⟨chan, queue, hassubs⟩ := session
  cases chan with
  | none => simp [publishTickCont]
  | some ch =>
    cases queue with
    | nil =>
      by_cases hl : sub.state = SubscriptionState.late
      · by_cases hlt : sub.lifeTimeCount < (sub.currentLifetimeCount + 1) % W
        · simp [publishTickCont, hl, hlt]
        · simp [publishTickCont, hl, hlt]
      · simp [publishTickCont, hl]
    | cons pre rest => simp [publishTickCont]

/-- C10: on any tick with `notificationsPerPublish ≥ 1`, if the counted
notifications are 0 (including when publishing is disabled while values
are queued) then the `moreNotifications` flag is false, every response the
tick emits is a keep-alive with `moreNotifications = false`, and the
tick never reaches the continuation re-entry. -/
theorem claim_C10 (sub : Subscription)
    (hcap : 1 ≤ sub.notificationsPerPublish)
    (h0 : (countQueuedNotifications sub).1 = 0) :
    (countQueuedNotifications sub).2 = false ∧
    ∀ (alloc : AllocProfile) (server : Server) (session : Session),
      (publishTickOnce alloc server sub session).more = false ∧
      ∀ resp ∈ (publishTickOnce alloc server sub session).emitted,
        resp.notifications = [] ∧ resp.moreNotifications = false := by
  have hm := countQueued_zero_no_more sub hcap h0
  refine ⟨hm, fun alloc server session => ?_⟩
  unfold publishTickOnce
  simp only [h0, hm, if_true]
  split
  · simp
  · exact publishTickCont_keepalive alloc server _ session

/-- C10 (witness). -/
theorem claim_C10_witness :
    1 ≤ kaSub.notificationsPerPublish ∧
    (countQueuedNotifications kaSub).1 = 0 ∧
    (countQueuedNotifications kaSub).2 = false ∧
    (publishTickOnce allocAllOk testServer kaSub kaSess).more = false :=
  ⟨by decide, by decide, (claim_C10 kaSub (by decide) (by decide)).1,
   ((claim_C10 kaSub (by decide) (by decide)).2 allocAllOk testServer kaSess).1⟩

/-- C6: if any allocation of the response-preparation path fails (the
retransmission-entry malloc, or the extension object, data-change
notification or notifications array inside `prepareNotificationMessage`,
all of which precede the first value move), a tick that had notifications
to send aborts without mutating the subscription, without consuming the
publish request, emitting nothing, deleting nothing, and with every
partially built allocation destroyed (net leak 0). -/
theorem claim_C6 (alloc : AllocProfile) (server : Server) (sub : Subscription)
    (session : Session)
    (hch : session.channel ≠ none)
    (hq : session.responseQueue ≠ [])
    (hn : (countQueuedNotifications sub).1 ≠ 0)
    (hfail : alloc.retransOk = false ∨ alloc.extObjOk = false ∨
             alloc.dcnOk = false ∨ alloc.arrayOk = false) :
    (publishTickOnce alloc server sub session).sub = sub ∧
    (publishTickOnce alloc server sub session).session = session ∧
    (publishTickOnce alloc server sub session).emitted = [] ∧
    (publishTickOnce alloc server sub session).deleted = false ∧
    (publishTickOnce alloc server sub session).leaked = 0 ∧
    (publishTickOnce alloc server sub session).more = false := by
  obtain ⟨chan, queue, hassubs⟩ := session
  cases chan with
  | none => exact absurd rfl hch
  | some ch =>
    cases queue with
    | nil => exact absurd rfl hq
    | cons pre rest =>
      have h1 : 0 < (countQueuedNotifications sub).1 := Nat.pos_of_ne_zero hn
      unfold publishTickOnce
      rw [if_neg hn]
      unfold publishTickCont
      cases hr : alloc.retransOk with
      | false => simp [hr, h1]
      | true =>
        cases he : alloc.extObjOk with
        | false => simp [prepareNotificationMessage, hr, he, h1]
        | true =>
          cases hd : alloc.dcnOk with
          | false => simp [prepareNotificationMessage, hr, he, hd, h1]
          | true =>
            cases ha : alloc.arrayOk with
            | false => simp [prepareNotificationMessage, hr, he, hd, ha, h1]
            | true => rcases hfail with h | h | h | h <;> simp_all

/-- C6 (witness): the array allocation fails on the overflow fixture. -/
theorem claim_C6_witness :
    ovOneReq.channel ≠ none ∧
    ovOneReq.responseQueue ≠ [] ∧
    (countQueuedNotifications ovSub).1 ≠ 0 ∧
    (allocNoArray.retransOk = false ∨ allocNoArray.extObjOk = false ∨
     allocNoArray.dcnOk = false ∨ allocNoArray.arrayOk = false) ∧
    ((publishTickOnce allocNoArray testServer ovSub ovOneReq).sub = ovSub ∧
     (publishTickOnce allocNoArray testServer ovSub ovOneReq).session = ovOneReq ∧
     (publishTickOnce allocNoArray testServer ovSub ovOneReq).emitted = [] ∧
     (publishTickOnce allocNoArray testServer ovSub ovOneReq).deleted = false ∧
     (publishTickOnce allocNoArray testServer ovSub ovOneReq).leaked = 0 ∧
     (publishTickOnce allocNoArray testServer ovSub ovOneReq).more = false) :=
  ⟨by decide, by decide, by decide, by decide,
   claim_C6 allocNoArray testServer ovSub ovOneReq (by decide) (by decide)
     (by decide) (by decide)⟩

/-- Helper: the move loop takes exactly `min budget queueLength` values from
one item's queue. -/
theorem drainItemQueue_len (b : Nat) (q : List QueuedValue) (size : Nat) :
    (drainItemQueue b q size).1.length = min b q.length := by
  induction b generalizing q size with
  | zero => simp [drainItemQueue]
  | succ b ih =>
    cases q with
    | nil => simp [drainItemQueue]
    | cons v rest =>
      simp only [drainItemQueue, List.length_cons, ih]
      omega

/-- Helper: `totalQueued` over a cons. -/
theorem totalQueued_cons (mon : MonitoredItem) (rest : List MonitoredItem) :
    totalQueued (mon :: rest) = mon.queue.length + totalQueued rest := by
  simp [totalQueued]

/-- Helper: the full move loop takes exactly `min budget total` values. -/
theorem drainItems_len (b : Nat) (items : List MonitoredItem) :
    (drainItems b items).1.length = min b (totalQueued items) := by
  induction items generalizing b with
  | nil => simp [drainItems, totalQueued]
  | cons mon rest ih =>
    simp only [drainItems, List.length_append, drainItemQueue_len, ih,
               totalQueued_cons]
    omega

/-- Helper: the per-item counting loop counts at most the queue length on
top of the accumulator. -/
theorem countItemQueue_le (cap : Nat) (q : List QueuedValue) (acc : Nat)
    (more : Bool) : (countItemQueue cap q acc more).1 ≤ acc + q.length := by
  induction q generalizing acc more with
  | nil => simp [countItemQueue]
  | cons v rest ih =>
    by_cases hc : acc ≥ cap
    · simp [countItemQueue, hc]
    · simp only [countItemQueue, hc, if_false, List.length_cons]
      have := ih (acc + 1) more
      omega

/-- Helper: the full counting loop counts at most the queued total on top
of the accumulator. -/
theorem countItemsQueues_le (cap : Nat) (items : List MonitoredItem)
    (acc : Nat) (more : Bool) :
    (countItemsQueues cap items acc more).1 ≤ acc + totalQueued items := by
  induction items generalizing acc more with
  | nil => simp [countItemsQueues, totalQueued]
  | cons mon rest ih =>
    simp only [countItemsQueues, totalQueued_cons]
    have h1 := countItemQueue_le cap mon.queue acc more
    have h2 := ih (countItemQueue cap mon.queue acc more).1
      (countItemQueue cap mon.queue acc more).2
    omega

/-- Helper: the tick never counts more notifications than are queued. -/
theorem count_le_total (sub : Subscription) :
    (countQueuedNotifications sub).1 ≤ totalQueued sub.monitoredItems := by
  unfold countQueuedNotifications
  by_cases hp : sub.publishingEnabled
  · simpa [hp] using countItemsQueues_le sub.notificationsPerPublish
      sub.monitoredItems 0 false
  · simp [hp]

/-- Helper: pushing onto the retransmission queue does not touch the
sequence counter. -/
theorem addRetransmission_seqNum (M : Nat) (sub : Subscription)
    (entry : NotificationMessageEntry) :
    (addRetransmissionMessage M sub entry).sequenceNumber =
      sub.sequenceNumber := by
  unfold addRetransmissionMessage
  split <;> rfl

/-- Helper: sequence-number effect of the rendezvous-and-commit phase:
either no data-bearing response is emitted and the counter is untouched,
or exactly one is emitted carrying the incremented counter, which is also
stored back. -/
theorem publishTickCont_seq (alloc : AllocProfile) (server : Server)
    (sub : Subscription) (session : Session) (n : Nat) (more : Bool)
    (hle : n ≤ totalQueued sub.monitoredItems) :
    (((publishTickCont alloc server sub session n more).emitted.filter
        dataBearing).map (·.sequenceNumber) = [] ∧
      (publishTickCont alloc server sub session n more).sub.sequenceNumber =
        sub.sequenceNumber) ∨
    (((publishTickCont alloc server sub session n more).emitted.filter
        dataBearing).map (·.sequenceNumber) = [stepW sub.sequenceNumber] ∧
      (publishTickCont alloc server sub session n more).sub.sequenceNumber =
        stepW sub.sequenceNumber) := by
  obtain ⟨chan, queue, hassubs⟩ := session
  cases chan with
  | none => left; simp [publishTickCont]
  | some ch =>
    cases queue with
    | nil =>
      left
      by_cases hl : sub.state = SubscriptionState.late
      · by_cases hlt : sub.lifeTimeCount < (sub.currentLifetimeCount + 1) % W
        · simp [publishTickCont, hl, hlt]
        · simp [publishTickCont, hl, hlt]
      · simp [publishTickCont, hl]
    | cons pre rest =>
      by_cases hn : n > 0
      · cases hr : alloc.retransOk with
        | false => left; simp [publishTickCont, hn, hr]
        | true =>
          cases he : alloc.extObjOk with
          | false => left; simp [publishTickCont, prepareNotificationMessage, hn, hr, he]
          | true =>
            cases hd : alloc.dcnOk with
            | false => left; simp [publishTickCont, prepareNotificationMessage, hn, hr, he, hd]
            | true =>
              cases ha : alloc.arrayOk with
              | false => left; simp [publishTickCont, prepareNotificationMessage, hn, hr, he, hd, ha]
              | true =>
                right
                have hml : (drainItems n sub.monitoredItems).1.length =
                    n := by rw [drainItems_len]; omega
                cases hmv : (drainItems n sub.monitoredItems).1 with
                | nil => rw [hmv] at hml; simp at hml; omega
                | cons m ms =>
                  simp [publishTickCont, prepareNotificationMessage, hn, hr,
                        he, hd, ha, hmv, dataBearing, addRetransmission_seqNum,
                        stepW]
      · have hn0 : n = 0 := by omega
        subst hn0
        left
        simp [publishTickCont, dataBearing]

/-- Helper: sequence-number effect of one whole callback invocation before
the re-entry. -/
theorem publishTickOnce_seq (alloc : AllocProfile) (server : Server)
    (sub : Subscription) (session : Session) :
    (((publishTickOnce alloc server sub session).emitted.filter
        dataBearing).map (·.sequenceNumber) = [] ∧
      (publishTickOnce alloc server sub session).sub.sequenceNumber =
        sub.sequenceNumber) ∨
    (((publishTickOnce alloc server sub session).emitted.filter
        dataBearing).map (·.sequenceNumber) = [stepW sub.sequenceNumber] ∧
      (publishTickOnce alloc server sub session).sub.sequenceNumber =
        stepW sub.sequenceNumber) := by
  unfold publishTickOnce
  by_cases h0 : (countQueuedNotifications sub).1 = 0
  · simp only [h0, if_true]
    split
    · left; simp
    · exact publishTickCont_seq alloc server _ session _ _ (Nat.zero_le _)
  · simp only [h0, if_false]
    exact publishTickCont_seq alloc server sub session _ _ (count_le_total sub)

/-- Helper: composing two expected chains. -/
theorem seqChain_append (n1 : Nat) :
    ∀ (s : Nat) (n2 : Nat),
      seqChain s n1 ++ seqChain (stepW^[n1] s) n2 = seqChain s (n1 + n2) := by
  induction n1 with
  | zero => intro s n2; simp [seqChain]
  | succ n ih =>
    intro s n2
    have harith : n + 1 + n2 = (n + n2) + 1 := by omega
    rw [harith, seqChain, seqChain, List.cons_append,
        Function.iterate_succ_apply, ih (stepW s) n2]

/-- Helper: the expected chain really increases by one modulo 2^32 at every
step. -/
theorem seqChain_chain (n : Nat) :
    ∀ s : Nat, List.Chain' (fun a b => b = (a + 1) % W) (seqChain s n) := by
  induction n with
  | zero => intro s; simp [seqChain]
  | succ n ih =>
    intro s
    rw [seqChain]
    refine List.chain'_cons'.mpr ⟨?_, ih (stepW s)⟩
    intro y hy
    cases n with
    | zero => simp [seqChain] at hy
    | succ m =>
      rw [seqChain] at hy
      simp only [List.head?_cons, Option.mem_def, Option.some_inj] at hy
      subst hy
      rfl

/-- Helper: the recursive callback emits data-bearing responses whose
sequence numbers form the expected chain from the stored counter, and
stores the final chain value back. -/
theorem publishCallback_seq (alloc : AllocProfile) (server : Server) :
    ∀ (fuel : Nat) (sub : Subscription) (session : Session),
      ∃ n : Nat,
        (((publishCallback alloc server fuel sub session).emitted.filter
            dataBearing).map (·.sequenceNumber)) =
          seqChain sub.sequenceNumber n ∧
        (publishCallback alloc server fuel sub session).sub.sequenceNumber =
          stepW^[n] sub.sequenceNumber := by
  intro fuel
  induction fuel with
  | zero =>
    intro sub session
    exact ⟨0, by simp [publishCallback, seqChain], rfl⟩
  | succ fuel ih =>
    intro sub session
    have h1 := publishTickOnce_seq alloc server sub session
    unfold publishCallback
    dsimp only
    split
    · obtain ⟨n2, hA, hB⟩ :=
        ih (publishTickOnce alloc server sub session).sub
           (publishTickOnce alloc server sub session).session
      rcases h1 with ⟨he, hs⟩ | ⟨he, hs⟩
      · refine ⟨n2, ?_, ?_⟩
        · simp only [List.filter_append, List.map_append, he, hA, hs,
                     List.nil_append]
        · simp only [hB, hs]
      · refine ⟨n2 + 1, ?_, ?_⟩
        · simp only [List.filter_append, List.map_append, he, hA, hs]
          rfl
        · simp only [hB, hs]
          exact (Function.iterate_succ_apply stepW n2 sub.sequenceNumber).symm
    · rcases h1 with ⟨he, hs⟩ | ⟨he, hs⟩
      · exact ⟨0, by simpa [seqChain] using he, hs⟩
      · exact ⟨1, by simpa [seqChain] using he, hs⟩

/-- Helper: across any multi-tick trace, the data-bearing responses form
the expected chain from the initial counter. -/
theorem runTrace_seq (alloc : AllocProfile) (server : Server) (fuel : Nat) :
    ∀ (envs : List TickEnv) (sub : Subscription),
      ∃ n : Nat,
        ((runTrace alloc server fuel envs sub).filter dataBearing).map
          (·.sequenceNumber) = seqChain sub.sequenceNumber n := by
  intro envs
  induction envs with
  | nil => intro sub; exact ⟨0, by simp [runTrace, seqChain]⟩
  | cons env rest ih =>
    intro sub
    obtain ⟨n1, hA, hB⟩ := publishCallback_seq alloc server fuel
      { sub with monitoredItems := env.items } env.session
    unfold runTrace
    dsimp only
    split
    · exact ⟨n1, hA⟩
    · obtain ⟨n2, h2⟩ := ih (publishCallback alloc server fuel
        { sub with monitoredItems := env.items } env.session).sub
      refine ⟨n1 + n2, ?_⟩
      rw [List.filter_append, List.map_append, hA, h2, hB]
      exact seqChain_append n1 sub.sequenceNumber n2

/-- Helper: a tick that reaches the rendezvous can emit a zero-notification
response only in the keep-alive branch, which previews the incremented
sequence number without storing it. -/
theorem publishTickCont_keepalive_seq (alloc : AllocProfile) (server : Server)
    (sub : Subscription) (session : Session) (n : Nat) (more : Bool)
    (hle : n ≤ totalQueued sub.monitoredItems) :
    ∀ resp ∈ (publishTickCont alloc server sub session n more).emitted,
      resp.notifications = [] →
        resp.sequenceNumber = stepW sub.sequenceNumber ∧
        (publishTickCont alloc server sub session n more).sub.sequenceNumber =
          sub.sequenceNumber := by
  obtain ⟨chan, queue, hassubs⟩ := session
  cases chan with
  | none => simp [publishTickCont]
  | some ch =>
    cases queue with
    | nil =>
      by_cases hl : sub.state = SubscriptionState.late
      · by_cases hlt : sub.lifeTimeCount < (sub.currentLifetimeCount + 1) % W
        · simp [publishTickCont, hl, hlt]
        · simp [publishTickCont, hl, hlt]
      · simp [publishTickCont, hl]
    | cons pre rest =>
      by_cases hn : n > 0
      · cases hr : alloc.retransOk with
        | false => simp [publishTickCont, hn, hr]
        | true =>
          cases he : alloc.extObjOk with
          | false => simp [publishTickCont, prepareNotificationMessage, hn, hr, he]
          | true =>
            cases hd : alloc.dcnOk with
            | false => simp [publishTickCont, prepareNotificationMessage, hn, hr, he, hd]
            | true =>
              cases ha : alloc.arrayOk with
              | false => simp [publishTickCont, prepareNotificationMessage, hn, hr, he, hd, ha]
              | true =>
                have hml : (drainItems n sub.monitoredItems).1.length =
                    n := by rw [drainItems_len]; omega
                cases hmv : (drainItems n sub.monitoredItems).1 with
                | nil => rw [hmv] at hml; simp at hml; omega
                | cons m ms =>
                  simp [publishTickCont, prepareNotificationMessage, hn, hr,
                        he, hd, ha, hmv]
      · have hn0 : n = 0 := by omega
        subst hn0
        simp [publishTickCont, stepW]

/-- Helper: one whole callback invocation can emit a zero-notification
response only as a keep-alive: it previews the incremented sequence number
and leaves the stored counter untouched. -/
theorem publishTickOnce_keepalive_seq (alloc : AllocProfile) (server : Server)
    (sub : Subscription) (session : Session) :
    ∀ resp ∈ (publishTickOnce alloc server sub session).emitted,
      resp.notifications = [] →
        resp.sequenceNumber = stepW sub.sequenceNumber ∧
        (publishTickOnce alloc server sub session).sub.sequenceNumber =
          sub.sequenceNumber := by
  unfold publishTickOnce
  by_cases h0 : (countQueuedNotifications sub).1 = 0
  · simp only [h0, if_true]
    rcases Nat.lt_or_ge ((sub.currentKeepAliveCount + 1) % W)
      sub.maxKeepAliveCount with hka | hka
    · rw [if_pos hka]
      simp
    · rw [if_neg (Nat.not_lt.mpr hka)]
      exact publishTickCont_keepalive_seq alloc server _ session _ _
        (Nat.zero_le _)
  · simp only [h0, if_false]
    exact publishTickCont_keepalive_seq alloc server sub session _ _
      (count_le_total sub)

/-- C1: across any multi-tick trace of the publish engine, consecutive
data-bearing responses carry sequence numbers that increase by exactly one
modulo 2^32; and any single tick that emits a zero-notification
(keep-alive) response stamps it with the stored sequence number plus one
(mod 2^32) without advancing the stored counter. -/
theorem claim_C1 :
    (∀ (alloc : AllocProfile) (server : Server) (fuel : Nat)
        (envs : List TickEnv) (sub : Subscription),
      List.Chain' (fun a b => b = (a + 1) % W)
        (((runTrace alloc server fuel envs sub).filter dataBearing).map
          (·.sequenceNumber))) ∧
    (∀ (alloc : AllocProfile) (server : Server) (sub : Subscription)
        (session : Session),
      ∀ resp ∈ (publishTickOnce alloc server sub session).emitted,
        resp.notifications = [] →
          resp.sequenceNumber = (sub.sequenceNumber + 1) % W ∧
          (publishTickOnce alloc server sub session).sub.sequenceNumber =
            sub.sequenceNumber) := by
  constructor
  · intro alloc server fuel envs sub
    obtain ⟨n, h⟩ := runTrace_seq alloc server fuel envs sub
    rw [h]
    exact seqChain_chain n sub.sequenceNumber
  · intro alloc server sub session
    exact publishTickOnce_keepalive_seq alloc server sub session

/-- C1 (witness): the keep-alive emitted on the third keep-alive-scenario
tick previews sequence number 1 while the stored counter stays 0. -/
theorem claim_C1_witness :
    (⟨42, 7, .good, 1000, false, 1, 1000, [], []⟩ : PublishResponse) ∈
      kaTick3.emitted ∧
    (⟨42, 7, .good, 1000, false, 1, 1000, [], []⟩ : PublishResponse).notifications = [] ∧
    ((⟨42, 7, .good, 1000, false, 1, 1000, [], []⟩ : PublishResponse).sequenceNumber =
        (kaTick2.sub.sequenceNumber + 1) % W ∧
      kaTick3.sub.sequenceNumber = kaTick2.sub.sequenceNumber) :=
  ⟨by decide, rfl,
   claim_C1.2 allocAllOk testServer kaTick2.sub kaSess
     ⟨42, 7, .good, 1000, false, 1, 1000, [], []⟩ (by decide) rfl⟩

end UASub
